import Mathlib

/-!
Verification of the metrics aggregation pipeline in
src/notebook/business_metrics.py, shallowly embedded in Lean 4.

Modelling conventions:
* a pandas DataFrame is a Lean `List` of row structures;
* prices, review scores and percentages are exact rationals (the source
  uses floats; none of the verified properties depend on rounding);
* timestamps are integer seconds; `Timedelta.dt.days` is floor division
  by 86400 (`Int.fdiv`), matching pandas flooring toward minus infinity;
* a float NaN (empty-series mean, NaT-valued day difference) is `Option.none`;
  comparisons against NaN are false, and arithmetic on NaN propagates NaN,
  which the embedding makes explicit at each use site;
* `groupby` emits group keys in ascending key order (pandas sort=True
  default); `sort_values` on the small grouped series is modelled as a
  stable sort (numpy introsort runs stable insertion sort on small arrays);
* `pd.merge` with no `on` argument is an inner join on the shared column,
  producing, for each left row in order, all matching right rows.
-/

/-- One row of the sales table (one sale line item). Field names follow the
columns used by business_metrics.py. Timestamps are integer seconds;
an absent order_delivered_customer_date (NaT) is none. -/
structure SaleRow where
  order_id : String
  product_id : String
  year : Int
  month : Int
  price : ℚ
  order_purchase_timestamp : Int
  order_delivered_customer_date : Option Int
deriving DecidableEq

/-- One row of the products table. -/
structure ProductRow where
  product_id : String
  product_category_name : String
deriving DecidableEq

/-- One row of the orders table. purchase_year stands for
pd.to_datetime(order_purchase_timestamp).dt.year, the calendar year of the
purchase timestamp. -/
structure OrderRow where
  order_id : String
  customer_id : String
  order_status : String
  purchase_year : Int
deriving DecidableEq

/-- One row of the customers table. -/
structure CustomerRow where
  customer_id : String
  customer_state : String
deriving DecidableEq

/-- One row of the reviews table. -/
structure ReviewRow where
  order_id : String
  review_score : ℚ
deriving DecidableEq

/-- Mean of a list of rationals; pandas Series.mean() returns NaN on an
empty series, modelled as none. -/
def meanOpt (l : List ℚ) : Option ℚ :=
  if l.isEmpty then none else some (l.sum / l.length)

/-- groupby(key)[value].sum() on a list of (key, value) pairs: the distinct
keys in ascending order (pandas groupby sorts keys by default), each paired
with the sum of its values. -/
def groupSums {K : Type} [LinearOrder K] [DecidableEq K]
    (pairs : List (K × ℚ)) : List (K × ℚ) :=
  (List.insertionSort (fun a b => a ≤ b) (pairs.map Prod.fst).dedup).map
    (fun k => (k, ((pairs.filter (fun q => q.1 = k)).map Prod.snd).sum))

/-- Series.sort_values(ascending=False) on a small (key, value) series:
stable sort descending by value (numpy introsort degenerates to stable
insertion sort on the small arrays produced by these groupbys). -/
def rankDesc {K : Type} (l : List (K × ℚ)) : List (K × ℚ) :=
  List.insertionSort (fun a b => b.2 ≤ a.2) l

/-- Result record of calculate_revenue_metrics. -/
structure RevenueMetrics where
  current_revenue : ℚ
  previous_revenue : ℚ
  revenue_growth : ℚ
deriving DecidableEq

/-- Embedding of calculate_revenue_metrics (business_metrics.py lines 15-49):
filter by year, sum price per year, zero-safe growth percentage. -/
def calculate_revenue_metrics (sales_data : List SaleRow)
    (current_year comparison_year : Int) : RevenueMetrics :=
  let current_data := sales_data.filter (fun r => r.year = current_year)
  let previous_data := sales_data.filter (fun r => r.year = comparison_year)
  let current_revenue := (current_data.map (fun r => r.price)).sum
  let previous_revenue := (previous_data.map (fun r => r.price)).sum
  let revenue_growth :=
    if previous_revenue = 0 then 0
    else ((current_revenue - previous_revenue) / previous_revenue) * 100
  ⟨current_revenue, previous_revenue, revenue_growth⟩

/-- Embedding of the nested categorize_delivery_speed function
(business_metrics.py lines 256-262). The argument is the float day count,
which is NaN (none) when the delivery date is absent: both NaN <= 3 and
NaN <= 7 are false in Python, so the none case falls through to "slow". -/
def categorize_delivery_speed : Option Int → String
  | some d => if d ≤ 3 then "fast" else if d ≤ 7 then "standard" else "slow"
  | none => "slow"

/-- Result record of calculate_average_order_value. The mean of an empty
groupby result is NaN in pandas, so the fields are Option valued
(none = NaN). -/
structure AovMetrics where
  current_aov : Option ℚ
  previous_aov : Option ℚ
  aov_growth : Option ℚ
deriving DecidableEq

/-- Embedding of calculate_average_order_value (business_metrics.py lines
70-104): per year, groupby order_id and sum price, take the mean of the
per-order sums, then compute growth. Python compares previous_aov == 0,
which is false when previous_aov is NaN (none), and the arithmetic in the
else branch propagates NaN. -/
def calculate_average_order_value (sales_data : List SaleRow)
    (current_year comparison_year : Int) : AovMetrics :=
  let current_data := sales_data.filter (fun r => r.year = current_year)
  let previous_data := sales_data.filter (fun r => r.year = comparison_year)
  let current_aov :=
    meanOpt ((groupSums (current_data.map (fun r => (r.order_id, r.price)))).map Prod.snd)
  let previous_aov :=
    meanOpt ((groupSums (previous_data.map (fun r => (r.order_id, r.price)))).map Prod.snd)
  let aov_growth :=
    if previous_aov = some 0 then some 0
    else
      match current_aov, previous_aov with
      | some c, some p => some (((c - p) / p) * 100)
      | _, _ => none
  ⟨current_aov, previous_aov, aov_growth⟩

/-- Value of one entry of a float Series produced by pct_change: NaN (the
leading entry and 0/0), a signed infinity (division of a nonzero value by
zero), or a finite rational. -/
inductive FloatVal where
  | nan : FloatVal
  | posInf : FloatVal
  | negInf : FloatVal
  | val : ℚ → FloatVal
deriving DecidableEq

/-- One step of Series.pct_change() * 100: (cur / prev - 1) * 100 under
float semantics (division by zero yields a signed infinity, 0/0 yields
NaN). -/
def pct_change_step (prev cur : ℚ) : FloatVal :=
  if prev = 0 then
    (if cur = 0 then FloatVal.nan else if 0 < cur then FloatVal.posInf else FloatVal.negInf)
  else FloatVal.val ((cur / prev - 1) * 100)

/-- Monthly revenue of one year: groupby('month')['price'].sum() over the
year-filtered sales, months in ascending order. -/
def monthly_revenue (sales_data : List SaleRow) (year : Int) : List (Int × ℚ) :=
  groupSums ((sales_data.filter (fun r => r.year = year)).map (fun r => (r.month, r.price)))

/-- Embedding of calculate_monthly_growth_trend (business_metrics.py lines
52-67): month-over-month pct_change of monthly revenue, times 100. The
first entry of pct_change is always NaN (no predecessor row). -/
def calculate_monthly_growth_trend (sales_data : List SaleRow) (year : Int) :
    List FloatVal :=
  let revs := (monthly_revenue sales_data year).map Prod.snd
  if revs.isEmpty then []
  else FloatVal.nan :: List.zipWith pct_change_step revs revs.tail

/-- One row of the merged delivery/review table built inside
calculate_delivery_performance_metrics: order_id, delivery speed in whole
days (none = NaN, from an absent delivery date), review score. -/
structure DeliveryReviewRow where
  order_id : String
  delivery_speed : Option Int
  review_score : ℚ
deriving DecidableEq

/-- Delivery speed of one sale row: (to_datetime(delivered) -
to_datetime(purchase)).dt.days, i.e. the day difference floored toward
minus infinity; NaT (absent delivery date) propagates to NaN (none). -/
def delivery_speed_of (s : SaleRow) : Option Int :=
  s.order_delivered_customer_date.map
    (fun d => Int.fdiv (d - s.order_purchase_timestamp) 86400)

/-- The delivery_reviews table of calculate_delivery_performance_metrics:
year-filtered sales inner-joined with reviews on order_id (all matching
review rows per sale row, in left-row order), then drop_duplicates. Like
pandas drop_duplicates, dedup keeps exactly one copy of every distinct
row; the two differ only in which duplicate survives, which no aggregate
below can observe. -/
def delivery_reviews_table (sales_data : List SaleRow)
    (reviews_data : List ReviewRow) (year : Int) : List DeliveryReviewRow :=
  ((sales_data.filter (fun s => s.year = year)).flatMap (fun s =>
    (reviews_data.filter (fun rv => rv.order_id = s.order_id)).map
      (fun rv => ⟨s.order_id, delivery_speed_of s, rv.review_score⟩))).dedup

/-- Result record of calculate_delivery_performance_metrics. The two plain
means can be NaN (empty table), the per-bucket scores default to 0 via
dict .get(key, 0). -/
structure DeliveryMetrics where
  avg_delivery_days : Option ℚ
  avg_review_score : Option ℚ
  fast_delivery_score : ℚ
  standard_delivery_score : ℚ
  slow_delivery_score : ℚ
deriving DecidableEq

/-- Mean review score of one delivery-speed bucket, with the
delivery_category_scores.get(category, 0) default of 0 for a bucket with
no rows. -/
def bucket_score (table : List DeliveryReviewRow) (category : String) : ℚ :=
  (meanOpt ((table.filter
      (fun r => categorize_delivery_speed r.delivery_speed = category)).map
    (fun r => r.review_score))).getD 0

/-- Embedding of calculate_delivery_performance_metrics
(business_metrics.py lines 220-278). avg_delivery_days is a pandas mean
over the delivery_speed column, which skips NaN entries (skipna default),
hence the filterMap; avg_review_score is the mean over all rows of the
merged table. -/
def calculate_delivery_performance_metrics (sales_data : List SaleRow)
    (reviews_data : List ReviewRow) (year : Int) : DeliveryMetrics :=
  let delivery_reviews := delivery_reviews_table sales_data reviews_data year
  ⟨meanOpt ((delivery_reviews.filterMap (fun r => r.delivery_speed) : List Int).map
      (fun d => (d : ℚ))),
    meanOpt (delivery_reviews.map (fun r => r.review_score)),
    bucket_score delivery_reviews "fast",
    bucket_score delivery_reviews "standard",
    bucket_score delivery_reviews "slow"⟩

/-- The sales_categories table of calculate_product_category_performance:
pd.merge(products[[product_id, category]], year_data[[product_id, price]]),
an inner join on product_id with products as the left frame, keeping the
(category, price) columns the groupby consumes. -/
def sales_categories (sales_data : List SaleRow)
    (products_data : List ProductRow) (year : Int) : List (String × ℚ) :=
  let year_data := sales_data.filter (fun s => s.year = year)
  products_data.flatMap (fun p =>
    (year_data.filter (fun s => s.product_id = p.product_id)).map
      (fun s => (p.product_category_name, s.price)))

/-- Embedding of calculate_product_category_performance
(business_metrics.py lines 144-175): inner-join products with the
year-filtered sales on product_id, groupby category and sum price, sort
descending by revenue. -/
def calculate_product_category_performance (sales_data : List SaleRow)
    (products_data : List ProductRow) (year : Int) : List (String × ℚ) :=
  rankDesc (groupSums (sales_categories sales_data products_data year))

/-- The sales_states table of calculate_geographic_performance:
year-filtered sales inner-joined with orders on order_id, then with
customers on customer_id, keeping the (customer_state, price) columns the
groupby consumes. -/
def sales_states (sales_data : List SaleRow) (orders_data : List OrderRow)
    (customers_data : List CustomerRow) (year : Int) : List (String × ℚ) :=
  let year_data := sales_data.filter (fun s => s.year = year)
  let sales_customers := year_data.flatMap (fun s =>
    (orders_data.filter (fun o => o.order_id = s.order_id)).map
      (fun o => (s.price, o.customer_id)))
  sales_customers.flatMap (fun sc =>
    (customers_data.filter (fun c => c.customer_id = sc.2)).map
      (fun c => (c.customer_state, sc.1)))

/-- Embedding of calculate_geographic_performance (business_metrics.py
lines 178-217): join sales to states through orders and customers, groupby
customer_state and sum price, sort descending by revenue. -/
def calculate_geographic_performance (sales_data : List SaleRow)
    (orders_data : List OrderRow) (customers_data : List CustomerRow)
    (year : Int) : List (String × ℚ) :=
  rankDesc (groupSums (sales_states sales_data orders_data customers_data year))

/-- Series.value_counts(normalize=True) * 100 over a list of strings: each
distinct value paired with 100 * count / total, sorted descending by
count. -/
def value_counts_pct (l : List String) : List (String × ℚ) :=
  rankDesc ((List.insertionSort (fun a b => a ≤ b) l.dedup).map
    (fun s => (s, 100 * ((l.count s : ℚ) / l.length))))

/-- Embedding of calculate_order_status_distribution (business_metrics.py
lines 281-298): filter orders to the purchase year, then
value_counts(normalize=True) * 100 over order_status. -/
def calculate_order_status_distribution (orders_data : List OrderRow)
    (year : Int) : List (String × ℚ) :=
  let year_data := orders_data.filter (fun o => o.purchase_year = year)
  value_counts_pct (year_data.map (fun o => o.order_status))

/-- Error raised by a column access on a pandas DataFrame. keyError is the
pandas KeyError raised by indexing a missing column. Modelled from the
spec: schemaErrorSpec stands for the SchemaError exception class the spec
posits; the repository defines no such class, the constructor exists only
to compare the specified behaviour with the embedded one. -/
inductive PdError where
  | keyError : String → PdError
  | schemaErrorSpec : String → PdError
deriving DecidableEq

/-- A DataFrame with its column schema left untyped: a set of column names
plus rows mapping column names to values. Used to model column accesses
that can fail with KeyError. -/
structure UTable where
  cols : List String
  rows : List (String → ℚ)

/-- df[df[c] == v]: select the rows whose column c equals v; raises
KeyError c when the column is absent. -/
def UTable.filterEq (t : UTable) (c : String) (v : ℚ) : Except PdError UTable :=
  if c ∈ t.cols then Except.ok ⟨t.cols, t.rows.filter (fun r => r c = v)⟩
  else Except.error (PdError.keyError c)

/-- df[c]: read one column as a list of values; raises KeyError c when the
column is absent. -/
def UTable.getCol (t : UTable) (c : String) : Except PdError (List ℚ) :=
  if c ∈ t.cols then Except.ok (t.rows.map (fun r => r c))
  else Except.error (PdError.keyError c)

/-- calculate_revenue_metrics over an untyped table, making the pandas
column accesses of lines 34-38 and their failure mode explicit: the year
column is read first (twice), then the price column; the first missing
column aborts the computation with its KeyError, exactly as an uncaught
Python exception would. -/
def calculate_revenue_metrics_untyped (t : UTable) (cy py : ℚ) :
    Except PdError RevenueMetrics :=
  match t.filterEq "year" cy with
  | Except.error e => Except.error e
  | Except.ok current_data =>
    match t.filterEq "year" py with
    | Except.error e => Except.error e
    | Except.ok previous_data =>
      match current_data.getCol "price" with
      | Except.error e => Except.error e
      | Except.ok cur_prices =>
        match previous_data.getCol "price" with
        | Except.error e => Except.error e
        | Except.ok prev_prices =>
          let c := cur_prices.sum
          let p := prev_prices.sum
          Except.ok ⟨c, p, if p = 0 then 0 else ((c - p) / p) * 100⟩

/-- The order that sort_values(ascending=False) actually establishes on
the grouped series: strictly descending by value, with value ties in
ascending key order. -/
def lexDesc {K : Type} [LT K] (a b : K × ℚ) : Prop :=
  b.2 < a.2 ∨ (a.2 = b.2 ∧ a.1 < b.1)

/-- C1: the growth computed by calculate_revenue_metrics is zero-safe: it is
0 whenever the comparison-year revenue sum is 0, and equals
((current - previous) / previous) * 100 otherwise; on the two-row 2023
scenario with an empty 2022 the result is (150, 0, 0). -/
theorem revenue_metrics_growth_zero_safe :
    ∀ (sales : List SaleRow) (cy py : Int),
      (((sales.filter (fun r => r.year = py)).map (fun r => r.price)).sum = 0 →
        (calculate_revenue_metrics sales cy py).revenue_growth = 0)
      ∧ (((sales.filter (fun r => r.year = py)).map (fun r => r.price)).sum ≠ 0 →
        (calculate_revenue_metrics sales cy py).revenue_growth =
          ((((sales.filter (fun r => r.year = cy)).map (fun r => r.price)).sum -
              ((sales.filter (fun r => r.year = py)).map (fun r => r.price)).sum) /
            ((sales.filter (fun r => r.year = py)).map (fun r => r.price)).sum) * 100)
      ∧ calculate_revenue_metrics
          [⟨"A", "P1", 2023, 1, 100, 0, none⟩, ⟨"B", "P2", 2023, 1, 50, 0, none⟩]
          2023 2022 = ⟨150, 0, 0⟩ := by
  intro sales cy py
  refine ⟨?_, ?_, by norm_num [calculate_revenue_metrics]⟩
  · intro h
    simp [calculate_revenue_metrics, h]
  · intro h
    simp [calculate_revenue_metrics, h]

/-- Witness for C1: the zero-safe branch at the concrete spec scenario. -/
theorem revenue_metrics_growth_zero_safe_witness :
    (calculate_revenue_metrics
      [⟨"A", "P1", 2023, 1, 100, 0, none⟩, ⟨"B", "P2", 2023, 1, 50, 0, none⟩]
      2023 2022).revenue_growth = 0 :=
  (revenue_metrics_growth_zero_safe
    [⟨"A", "P1", 2023, 1, 100, 0, none⟩, ⟨"B", "P2", 2023, 1, 50, 0, none⟩]
    2023 2022).1 (by norm_num)

/-- C4: categorize_delivery_speed is a total exhaustive partition of the
defined whole-day speeds: speed <= 3 (negatives included) is fast,
4 <= speed <= 7 is standard, speed >= 8 is slow, and every defined speed
lands in exactly one of the three buckets. -/
theorem categorize_delivery_speed_partition :
    ∀ s : Int,
      (categorize_delivery_speed (some s) = "fast" ↔ s ≤ 3)
      ∧ (categorize_delivery_speed (some s) = "standard" ↔ 4 ≤ s ∧ s ≤ 7)
      ∧ (categorize_delivery_speed (some s) = "slow" ↔ 8 ≤ s) := by
  intro s
  have e : categorize_delivery_speed (some s)
      = if s ≤ 3 then "fast" else if s ≤ 7 then "standard" else "slow" := rfl
  rw [e]
  split_ifs with h1 h2
  · exact ⟨iff_of_true rfl h1,
      iff_of_false (by decide) (by omega),
      iff_of_false (by decide) (by omega)⟩
  · exact ⟨iff_of_false (by decide) (by omega),
      iff_of_true rfl (by omega),
      iff_of_false (by decide) (by omega)⟩
  · exact ⟨iff_of_false (by decide) (by omega),
      iff_of_false (by decide) (by omega),
      iff_of_true rfl (by omega)⟩

/-- C2 counterexample: on a sales table with one 2023 row and no 2022 rows,
calculate_average_order_value returns NaN (none) for aov_growth, not the
defined value 0 the claim requires: the empty-table mean is NaN, NaN == 0
is false in Python, and the growth formula propagates the NaN. -/
theorem aov_growth_empty_previous_counterexample :
    (calculate_average_order_value [⟨"A", "P1", 2023, 1, 100, 0, none⟩]
        2023 2022).aov_growth = none
    ∧ (calculate_average_order_value [⟨"A", "P1", 2023, 1, 100, 0, none⟩]
        2023 2022).aov_growth ≠ some 0 := by
  constructor <;>
    norm_num [calculate_average_order_value, groupSums, meanOpt,
      List.insertionSort, List.orderedInsert, List.dedup, List.pwFilter] <;>
    decide

/-- C2 amended: for every sales table with at least one current-year row
and no comparison-year rows, calculate_average_order_value returns NaN
(none) for previous_aov and for aov_growth — the empty-aggregate mean is a
NaN sentinel and the caller does not treat it as zero, so the NaN
propagates into the growth value. -/
theorem aov_growth_empty_previous_is_nan :
    ∀ (sales : List SaleRow) (cy py : Int),
      (∃ r ∈ sales, r.year = cy) → (∀ r ∈ sales, r.year ≠ py) →
        (calculate_average_order_value sales cy py).previous_aov = none
        ∧ (calculate_average_order_value sales cy py).aov_growth = none := by
  intro sales cy py _ hprev
  have hfilter : sales.filter (fun r => decide (r.year = py)) = [] := by
    rw [List.filter_eq_nil_iff]
    intro a ha
    simpa using hprev a ha
  have hpa : (calculate_average_order_value sales cy py).previous_aov = none := by
    simp only [calculate_average_order_value, hfilter]
    rfl
  refine ⟨hpa, ?_⟩
  simp only [calculate_average_order_value, hfilter] at hpa ⊢
  rcases hca : meanOpt ((groupSums ((sales.filter
      (fun r => decide (r.year = cy))).map (fun r => (r.order_id, r.price)))).map
      Prod.snd) with _ | q <;>
    simp [hca, meanOpt, groupSums]

/-- Witness for C2 amended, at the concrete one-row table. -/
theorem aov_growth_empty_previous_is_nan_witness :
    (calculate_average_order_value [⟨"A", "P1", 2023, 1, 100, 0, none⟩]
      2023 2022).aov_growth = none :=
  (aov_growth_empty_previous_is_nan [⟨"A", "P1", 2023, 1, 100, 0, none⟩]
    2023 2022 (by decide) (by decide)).2

/-- C6: the first entry of calculate_monthly_growth_trend is the NaN
"no prior" marker whenever the year has at least one month of data; every
later entry whose predecessor month has nonzero revenue carries
((rev - prev_rev) / prev_rev) * 100; and the two-month scenario
[Jan:100, Feb:150] yields [NaN, 50]. -/
theorem monthly_growth_trend_first_nan :
    ∀ (sales : List SaleRow) (y : Int),
      (monthly_revenue sales y ≠ [] →
        (calculate_monthly_growth_trend sales y).head? = some FloatVal.nan)
      ∧ (∀ (i : ℕ) (a b : Int × ℚ),
          (monthly_revenue sales y)[i]? = some a →
          (monthly_revenue sales y)[i + 1]? = some b →
          a.2 ≠ 0 →
          (calculate_monthly_growth_trend sales y)[i + 1]? =
            some (FloatVal.val (((b.2 - a.2) / a.2) * 100)))
      ∧ calculate_monthly_growth_trend
          [⟨"A", "P1", 2023, 1, 100, 0, none⟩, ⟨"B", "P2", 2023, 2, 150, 0, none⟩]
          2023 = [FloatVal.nan, FloatVal.val 50] := by
  intro sales y
  refine ⟨?_, ?_, ?_⟩
  · intro hne
    have h1 : ((monthly_revenue sales y).map Prod.snd).isEmpty = false := by
      simp [List.isEmpty_iff, hne]
    simp [calculate_monthly_growth_trend, h1]
  · intro i a b ha hb hne
    have hv1 : ((monthly_revenue sales y).map Prod.snd)[i]? = some a.2 := by
      rw [List.getElem?_map, ha]
      rfl
    have hv2 : ((monthly_revenue sales y).map Prod.snd)[i + 1]? = some b.2 := by
      rw [List.getElem?_map, hb]
      rfl
    have hemp : ((monthly_revenue sales y).map Prod.snd).isEmpty = false := by
      rcases h : (monthly_revenue sales y).map Prod.snd with _ | _
      · rw [h] at hv2
        simp at hv2
      · simp [h]
    simp only [calculate_monthly_growth_trend, hemp, Bool.false_eq_true,
      if_false, List.getElem?_cons_succ]
    rw [List.getElem?_zipWith, hv1, List.getElem?_tail, hv2]
    have hstep : pct_change_step a.2 b.2 = FloatVal.val (((b.2 - a.2) / a.2) * 100) := by
      rw [pct_change_step, if_neg hne]
      congr 1
      field_simp
    show some (pct_change_step a.2 b.2) = _
    rw [hstep]
  · norm_num [calculate_monthly_growth_trend, monthly_revenue, groupSums,
      meanOpt, List.insertionSort, List.orderedInsert, List.dedup,
      List.pwFilter, pct_change_step]

/-- Witness for C6: the two hypothesis-bearing conjuncts applied at the
concrete two-month scenario. -/
theorem monthly_growth_trend_first_nan_witness :
    (calculate_monthly_growth_trend
        [⟨"A", "P1", 2023, 1, 100, 0, none⟩, ⟨"B", "P2", 2023, 2, 150, 0, none⟩]
        2023).head? = some FloatVal.nan
    ∧ (calculate_monthly_growth_trend
        [⟨"A", "P1", 2023, 1, 100, 0, none⟩, ⟨"B", "P2", 2023, 2, 150, 0, none⟩]
        2023)[1]? = some (FloatVal.val (((150 - 100) / 100) * 100)) := by
  constructor
  · refine (monthly_growth_trend_first_nan
      [⟨"A", "P1", 2023, 1, 100, 0, none⟩, ⟨"B", "P2", 2023, 2, 150, 0, none⟩]
      2023).1 ?_
    norm_num [monthly_revenue, groupSums, List.insertionSort,
      List.orderedInsert, List.dedup, List.pwFilter]
    decide
  · refine (monthly_growth_trend_first_nan
      [⟨"A", "P1", 2023, 1, 100, 0, none⟩, ⟨"B", "P2", 2023, 2, 150, 0, none⟩]
      2023).2.1 0 (1, 100) (2, 150) ?_ ?_ (by norm_num) <;>
      norm_num [monthly_revenue, groupSums, List.insertionSort,
        List.orderedInsert, List.dedup, List.pwFilter]

/-- C5: every delivery-speed bucket with no rows reports score 0 (the dict
.get default), not an absent key; and the one-sale scenario (purchase day
0, delivered day 5, review 4) yields avg_delivery_days = 5,
avg_review_score = 4, standard = 4, fast = 0, slow = 0. -/
theorem delivery_empty_bucket_reports_zero :
    ∀ (sales : List SaleRow) (reviews : List ReviewRow) (y : Int),
      ((delivery_reviews_table sales reviews y).filter
          (fun r => categorize_delivery_speed r.delivery_speed = "fast") = [] →
        (calculate_delivery_performance_metrics sales reviews y).fast_delivery_score = 0)
      ∧ ((delivery_reviews_table sales reviews y).filter
          (fun r => categorize_delivery_speed r.delivery_speed = "standard") = [] →
        (calculate_delivery_performance_metrics sales reviews y).standard_delivery_score = 0)
      ∧ ((delivery_reviews_table sales reviews y).filter
          (fun r => categorize_delivery_speed r.delivery_speed = "slow") = [] →
        (calculate_delivery_performance_metrics sales reviews y).slow_delivery_score = 0)
      ∧ calculate_delivery_performance_metrics
          [⟨"A", "P1", 2023, 1, 100, 0, some 432000⟩] [⟨"A", 4⟩] 2023
          = ⟨some 5, some 4, 0, 4, 0⟩ := by
  intro sales reviews y
  refine ⟨?_, ?_, ?_, ?_⟩
  · intro h
    simp [calculate_delivery_performance_metrics, bucket_score, h, meanOpt]
  · intro h
    simp [calculate_delivery_performance_metrics, bucket_score, h, meanOpt]
  · intro h
    simp [calculate_delivery_performance_metrics, bucket_score, h, meanOpt]
  · have htab : delivery_reviews_table
        [⟨"A", "P1", 2023, 1, 100, 0, some 432000⟩] [⟨"A", 4⟩] 2023
        = [⟨"A", some 5, 4⟩] := by decide
    have hfast : (([⟨"A", some 5, 4⟩] : List DeliveryReviewRow).filter
        (fun r => categorize_delivery_speed r.delivery_speed = "fast")) = [] := by decide
    have hstd : (([⟨"A", some 5, 4⟩] : List DeliveryReviewRow).filter
        (fun r => categorize_delivery_speed r.delivery_speed = "standard"))
        = [⟨"A", some 5, 4⟩] := by decide
    have hslow : (([⟨"A", some 5, 4⟩] : List DeliveryReviewRow).filter
        (fun r => categorize_delivery_speed r.delivery_speed = "slow")) = [] := by decide
    have hplain : (([⟨"A", some 5, 4⟩] : List DeliveryReviewRow).filterMap
        (fun r => r.delivery_speed)) = [5] := by decide
    have havg : meanOpt ((([⟨"A", some 5, 4⟩] : List DeliveryReviewRow).filterMap
        (fun r => r.delivery_speed) : List Int).map (fun d => (d : ℚ))) = some 5 := by
      rw [hplain]
      norm_num [meanOpt]
    simp only [calculate_delivery_performance_metrics, htab, bucket_score,
      hfast, hstd, hslow, havg]
    norm_num [meanOpt]

/-- Witness for C5: the fast and slow buckets of the concrete scenario are
empty and report 0. -/
theorem delivery_empty_bucket_reports_zero_witness :
    (calculate_delivery_performance_metrics
        [⟨"A", "P1", 2023, 1, 100, 0, some 432000⟩] [⟨"A", 4⟩] 2023).fast_delivery_score = 0
    ∧ (calculate_delivery_performance_metrics
        [⟨"A", "P1", 2023, 1, 100, 0, some 432000⟩] [⟨"A", 4⟩] 2023).slow_delivery_score = 0 :=
  ⟨(delivery_empty_bucket_reports_zero
      [⟨"A", "P1", 2023, 1, 100, 0, some 432000⟩] [⟨"A", 4⟩] 2023).1 (by decide),
    (delivery_empty_bucket_reports_zero
      [⟨"A", "P1", 2023, 1, 100, 0, some 432000⟩] [⟨"A", 4⟩] 2023).2.2.1 (by decide)⟩

/-- Deduplication commutes with filtering. -/
theorem dedup_filter_comm {α : Type} [DecidableEq α] (p : α → Bool) :
    ∀ l : List α, (l.filter p).dedup = l.dedup.filter p := by
  intro l
  induction l with
  | nil => rfl
  | cons a t ih =>
    by_cases hpa : p a
    · rw [List.filter_cons_of_pos hpa]
      by_cases hat : a ∈ t
      · rw [List.dedup_cons_of_mem (List.mem_filter.mpr ⟨hat, hpa⟩),
          List.dedup_cons_of_mem hat, ih]
      · have h1 : a ∉ t.filter p := fun hm => hat (List.mem_filter.mp hm).1
        rw [List.dedup_cons_of_not_mem h1, List.dedup_cons_of_not_mem hat,
          List.filter_cons_of_pos hpa, ih]
    · rw [List.filter_cons_of_neg hpa]
      by_cases hat : a ∈ t
      · rw [List.dedup_cons_of_mem hat, ih]
      · rw [List.dedup_cons_of_not_mem hat, List.filter_cons_of_neg hpa, ih]

/-- Restricting the sales side of the delivery join to rows with a present
delivery date is the same as building the join first and keeping the rows
with a defined delivery speed. -/
theorem flatMap_delivery_filter (reviews : List ReviewRow) :
    ∀ m : List SaleRow,
      (m.filter (fun s => s.order_delivered_customer_date.isSome)).flatMap
        (fun s => (reviews.filter (fun rv => rv.order_id = s.order_id)).map
          (fun rv => (⟨s.order_id, delivery_speed_of s, rv.review_score⟩ : DeliveryReviewRow)))
      = (m.flatMap
          (fun s => (reviews.filter (fun rv => rv.order_id = s.order_id)).map
            (fun rv => (⟨s.order_id, delivery_speed_of s, rv.review_score⟩ : DeliveryReviewRow)))).filter
          (fun r => r.delivery_speed.isSome) := by
  intro m
  induction m with
  | nil => rfl
  | cons s t ih =>
    by_cases hs : s.order_delivered_customer_date.isSome
    · rw [@List.filter_cons_of_pos SaleRow
          (fun s => s.order_delivered_customer_date.isSome) s t hs,
        List.flatMap_cons, List.flatMap_cons, List.filter_append, ih]
      congr 1
      symm
      rw [List.filter_eq_self]
      intro r hr
      rcases List.mem_map.mp hr with ⟨rv, _, rfl⟩
      simpa [delivery_speed_of] using hs
    · rw [@List.filter_cons_of_neg SaleRow
          (fun s => s.order_delivered_customer_date.isSome) s t hs,
        List.flatMap_cons, List.filter_append, ih]
      have hnil : ((reviews.filter (fun rv => rv.order_id = s.order_id)).map
          (fun rv => (⟨s.order_id, delivery_speed_of s, rv.review_score⟩ : DeliveryReviewRow))).filter
          (fun r => r.delivery_speed.isSome) = [] := by
        rw [List.filter_eq_nil_iff]
        intro r hr
        rcases List.mem_map.mp hr with ⟨rv, _, rfl⟩
        simpa [delivery_speed_of] using hs
      rw [hnil, List.nil_append]

/-- Rows whose delivery speed is NaN contribute nothing to the filterMap
that collects the defined speeds. -/
theorem filterMap_speed_of_filter_isSome :
    ∀ rows : List DeliveryReviewRow,
      ((rows.filter (fun r => r.delivery_speed.isSome)).filterMap
          (fun r => r.delivery_speed) : List Int)
        = rows.filterMap (fun r => r.delivery_speed) := by
  intro rows
  induction rows with
  | nil => rfl
  | cons r t ih =>
    rcases hr : r.delivery_speed with _ | d
    · simp [List.filter_cons, hr, List.filterMap_cons, ih]
    · simp [List.filter_cons, hr, List.filterMap_cons, ih]

/-- C3 counterexample: a sale with an absent delivery date and a matching
review is NOT excluded from all delivery metrics: its review score is
counted in avg_review_score, and the row lands in the slow bucket
(NaN fails both day-count comparisons), so slow_delivery_score is its
score instead of 0. -/
theorem delivery_absent_date_counterexample :
    (calculate_delivery_performance_metrics
        [⟨"A", "P1", 2023, 1, 100, 0, none⟩] [⟨"A", 5⟩] 2023).avg_review_score = some 5
    ∧ (calculate_delivery_performance_metrics
        [⟨"A", "P1", 2023, 1, 100, 0, none⟩] [⟨"A", 5⟩] 2023).slow_delivery_score = 5 := by
  have htab : delivery_reviews_table
      [⟨"A", "P1", 2023, 1, 100, 0, none⟩] [⟨"A", 5⟩] 2023
      = [⟨"A", none, 5⟩] := by decide
  have hslow : (([⟨"A", none, 5⟩] : List DeliveryReviewRow).filter
      (fun r => categorize_delivery_speed r.delivery_speed = "slow"))
      = [⟨"A", none, 5⟩] := by decide
  constructor
  · simp only [calculate_delivery_performance_metrics, htab]
    norm_num [meanOpt]
  · simp only [calculate_delivery_performance_metrics, htab, bucket_score, hslow]
    norm_num [meanOpt]

/-- C3 amended: sale rows with an absent order_delivered_customer_date are
excluded from avg_delivery_days (the pandas mean skips NaN), but not from
the review metrics: the NaN delivery speed falls into the slow bucket, and
on the concrete one-row anomaly input the review score 5 shows up in
avg_review_score and slow_delivery_score. -/
theorem delivery_absent_date_excluded_only_from_days :
    ∀ (sales : List SaleRow) (reviews : List ReviewRow) (y : Int),
      (calculate_delivery_performance_metrics sales reviews y).avg_delivery_days
        = (calculate_delivery_performance_metrics
            (sales.filter (fun s => s.order_delivered_customer_date.isSome))
            reviews y).avg_delivery_days
      ∧ categorize_delivery_speed none = "slow"
      ∧ calculate_delivery_performance_metrics
          [⟨"A", "P1", 2023, 1, 100, 0, none⟩] [⟨"A", 5⟩] 2023
          = ⟨none, some 5, 0, 0, 5⟩ := by
  intro sales reviews y
  refine ⟨?_, rfl, ?_⟩
  · have hcomm : (sales.filter (fun s => s.order_delivered_customer_date.isSome)).filter
        (fun s => s.year = y)
        = (sales.filter (fun s => s.year = y)).filter
          (fun s => s.order_delivered_customer_date.isSome) :=
      List.filter_comm _ _ _
    have htab : delivery_reviews_table
        (sales.filter (fun s => s.order_delivered_customer_date.isSome)) reviews y
        = (delivery_reviews_table sales reviews y).filter
          (fun r => r.delivery_speed.isSome) := by
      unfold delivery_reviews_table
      rw [hcomm, flatMap_delivery_filter, dedup_filter_comm]
    simp only [calculate_delivery_performance_metrics, htab,
      filterMap_speed_of_filter_isSome]
  · have htab : delivery_reviews_table
        [⟨"A", "P1", 2023, 1, 100, 0, none⟩] [⟨"A", 5⟩] 2023
        = [⟨"A", none, 5⟩] := by decide
    have hfast : (([⟨"A", none, 5⟩] : List DeliveryReviewRow).filter
        (fun r => categorize_delivery_speed r.delivery_speed = "fast")) = [] := by decide
    have hstd : (([⟨"A", none, 5⟩] : List DeliveryReviewRow).filter
        (fun r => categorize_delivery_speed r.delivery_speed = "standard")) = [] := by decide
    have hslow : (([⟨"A", none, 5⟩] : List DeliveryReviewRow).filter
        (fun r => categorize_delivery_speed r.delivery_speed = "slow"))
        = [⟨"A", none, 5⟩] := by decide
    have hplain : (([⟨"A", none, 5⟩] : List DeliveryReviewRow).filterMap
        (fun r => r.delivery_speed)) = [] := by decide
    have havg : meanOpt ((([⟨"A", none, 5⟩] : List DeliveryReviewRow).filterMap
        (fun r => r.delivery_speed) : List Int).map (fun d => (d : ℚ))) = none := by
      rw [hplain]
      norm_num [meanOpt]
    simp only [calculate_delivery_performance_metrics, htab, bucket_score,
      hfast, hstd, hslow, havg]
    norm_num [meanOpt]

/-- flatMap respects functions that agree on the members of the list. -/
theorem flatMap_congr_mem {α β : Type} (f g : α → List β) :
    ∀ l : List α, (∀ a ∈ l, f a = g a) → l.flatMap f = l.flatMap g := by
  intro l
  induction l with
  | nil => intro _; rfl
  | cons a t ih =>
    intro h
    rw [List.flatMap_cons, List.flatMap_cons, h a (List.mem_cons_self a t),
      ih (fun x hx => h x (List.mem_cons_of_mem a hx))]

/-- C7: the category join is an inner join that silently drops unmatched
sale rows: restricting the sales table to the rows whose product_id occurs
in the products table leaves the entire output of
calculate_product_category_performance unchanged, so an unmatched sale
contributes to no output row and produces no null-filled row. -/
theorem category_performance_drops_unmatched_sales :
    ∀ (sales : List SaleRow) (products : List ProductRow) (y : Int),
      calculate_product_category_performance sales products y
        = calculate_product_category_performance
            (sales.filter (fun s => products.any (fun p => p.product_id = s.product_id)))
            products y := by
  intro sales products y
  unfold calculate_product_category_performance
  congr 1
  apply congrArg
  unfold sales_categories
  apply flatMap_congr_mem
  intro p hp
  apply congrArg
  rw [List.filter_filter, List.filter_filter, List.filter_filter]
  apply List.filter_congr
  intro s _
  by_cases hm : s.product_id = p.product_id
  · have hany : products.any (fun q => q.product_id = s.product_id) = true :=
      List.any_eq_true.mpr ⟨p, hp, by simp [hm]⟩
    simp [hm, hany]
    exact fun _ => ⟨p, hp, rfl⟩
  · simp [hm]

/-- Inserting a pair whose key is strictly below every key of a lexDesc
sorted list keeps the list lexDesc sorted: the insertion point groups the
new pair behind the strictly larger values and in front of its value
ties, whose keys are all larger. -/
theorem pairwise_orderedInsert_lexDesc {K : Type} [LinearOrder K] (a : K × ℚ) :
    ∀ m : List (K × ℚ), m.Pairwise lexDesc → (∀ z ∈ m, a.1 < z.1) →
      (List.orderedInsert (fun x y => y.2 ≤ x.2) a m).Pairwise lexDesc := by
  intro m
  induction m with
  | nil =>
    intro _ _
    simp [List.orderedInsert]
  | cons b m ih =>
    intro hpw hkey
    rcases List.pairwise_cons.mp hpw with ⟨hb, hm⟩
    simp only [List.orderedInsert]
    by_cases hr : b.2 ≤ a.2
    · rw [if_pos hr]
      refine List.pairwise_cons.mpr ⟨?_, hpw⟩
      intro z hz
      have hz2 : z.2 ≤ a.2 := by
        rcases List.mem_cons.mp hz with h | h
        · rw [h]
          exact hr
        · rcases hb z h with hlt | ⟨heq, _⟩
          · exact le_trans (le_of_lt hlt) hr
          · exact le_trans (le_of_eq heq.symm) hr
      rcases lt_or_eq_of_le hz2 with hlt | heq
      · exact Or.inl hlt
      · exact Or.inr ⟨heq.symm, hkey z hz⟩
    · rw [if_neg hr]
      refine List.pairwise_cons.mpr
        ⟨?_, ih hm (fun z hz => hkey z (List.mem_cons_of_mem b hz))⟩
      intro z hz
      rcases (List.mem_orderedInsert _).mp hz with h | h
      · rw [h]
        exact Or.inl (lt_of_not_le hr)
      · exact hb z h

/-- rankDesc of a list with strictly ascending keys is sorted strictly
descending by value with value ties in ascending key order. -/
theorem pairwise_rankDesc_of_keys_sorted {K : Type} [LinearOrder K] :
    ∀ l : List (K × ℚ), l.Pairwise (fun x y => x.1 < y.1) →
      (rankDesc l).Pairwise lexDesc := by
  intro l
  induction l with
  | nil =>
    intro _
    simp [rankDesc, List.insertionSort]
  | cons a t ih =>
    intro hpw
    rcases List.pairwise_cons.mp hpw with ⟨ha, ht⟩
    have hstep : rankDesc (a :: t)
        = List.orderedInsert (fun x y => y.2 ≤ x.2) a (rankDesc t) := rfl
    rw [hstep]
    refine pairwise_orderedInsert_lexDesc a _ (ih ht) ?_
    intro z hz
    have hz2 : z ∈ List.insertionSort (fun x y : K × ℚ => y.2 ≤ x.2) t := hz
    exact ha z ((List.perm_insertionSort (fun x y : K × ℚ => y.2 ≤ x.2) t).mem_iff.mp hz2)

/-- The keys emitted by groupSums are strictly ascending: they are the
sorted deduplicated keys of the input pairs. -/
theorem groupSums_keys_sorted {K : Type} [LinearOrder K] [DecidableEq K]
    (pairs : List (K × ℚ)) :
    (groupSums pairs).Pairwise (fun x y => x.1 < y.1) := by
  unfold groupSums
  rw [List.pairwise_map]
  have hsorted : (List.insertionSort (fun a b => a ≤ b)
      (pairs.map Prod.fst).dedup).Pairwise (fun a b => a ≤ b) :=
    List.sorted_insertionSort _ _
  have hnodup : (List.insertionSort (fun a b => a ≤ b)
      (pairs.map Prod.fst).dedup).Nodup :=
    (List.perm_insertionSort _ _).nodup_iff.mpr (List.nodup_dedup _)
  exact (hsorted.and hnodup).imp (fun hab => lt_of_le_of_ne hab.1 hab.2)

/-- C9 amended: the ranked aggregates are sorted strictly descending by
summed revenue, and two groups with equal revenue appear in ascending
group-key order (the groupby emits keys sorted and the descending sort is
stable), not in the order of first appearance in the input table. -/
theorem ranked_aggregates_sorted_desc_ties_ascending :
    ∀ (sales : List SaleRow) (products : List ProductRow)
      (orders : List OrderRow) (customers : List CustomerRow) (y : Int),
      (calculate_product_category_performance sales products y).Pairwise lexDesc
      ∧ (calculate_geographic_performance sales orders customers y).Pairwise lexDesc := by
  intro sales products orders customers y
  constructor
  · exact pairwise_rankDesc_of_keys_sorted _ (groupSums_keys_sorted _)
  · exact pairwise_rankDesc_of_keys_sorted _ (groupSums_keys_sorted _)

/-- C9 counterexample: two categories with equal revenue, with "bb" first
in both the sales table and the products table; the output ranks "aa"
before "bb" (ascending key order on the tie), not in original row order as
the claim states. -/
theorem ranked_tie_order_counterexample :
    calculate_product_category_performance
        [⟨"A", "P1", 2023, 1, 10, 0, none⟩, ⟨"B", "P2", 2023, 1, 10, 0, none⟩]
        [⟨"P1", "bb"⟩, ⟨"P2", "aa"⟩] 2023
      = [("aa", 10), ("bb", 10)]
    ∧ calculate_product_category_performance
        [⟨"A", "P1", 2023, 1, 10, 0, none⟩, ⟨"B", "P2", 2023, 1, 10, 0, none⟩]
        [⟨"P1", "bb"⟩, ⟨"P2", "aa"⟩] 2023
      ≠ [("bb", 10), ("aa", 10)] := by
  have htab : sales_categories
      [⟨"A", "P1", 2023, 1, 10, 0, none⟩, ⟨"B", "P2", 2023, 1, 10, 0, none⟩]
      [⟨"P1", "bb"⟩, ⟨"P2", "aa"⟩] 2023
      = [("bb", 10), ("aa", 10)] := by decide
  have hkeys : ((([("bb", (10 : ℚ)), ("aa", 10)] : List (String × ℚ)).map
      Prod.fst).dedup) = ["bb", "aa"] := by decide
  have hsortkeys : List.insertionSort (fun a b => a ≤ b) ["bb", "aa"]
      = ["aa", "bb"] := by
    norm_num [List.insertionSort, List.orderedInsert]
    decide
  have hf1 : ([("bb", (10 : ℚ)), ("aa", 10)] : List (String × ℚ)).filter
      (fun q => q.1 = "aa") = [("aa", 10)] := by decide
  have hf2 : ([("bb", (10 : ℚ)), ("aa", 10)] : List (String × ℚ)).filter
      (fun q => q.1 = "bb") = [("bb", 10)] := by decide
  have hgroup : groupSums ([("bb", (10 : ℚ)), ("aa", 10)] : List (String × ℚ))
      = [("aa", 10), ("bb", 10)] := by
    unfold groupSums
    rw [hkeys, hsortkeys]
    simp only [List.map_cons, List.map_nil, hf1, hf2]
    norm_num
  constructor
  · unfold calculate_product_category_performance
    rw [htab, hgroup]
    norm_num [rankDesc, List.insertionSort, List.orderedInsert]
  · unfold calculate_product_category_performance
    rw [htab, hgroup]
    norm_num [rankDesc, List.insertionSort, List.orderedInsert]
    decide

/-- Distributing the constant factor 100 / N over a list of per-status
percentages. -/
theorem sum_map_pct {α : Type} (src : List α) [DecidableEq α] (N : ℚ) :
    ∀ K : List α,
      (K.map (fun s => (100 : ℚ) * ((src.count s : ℚ) / N))).sum
        = 100 * (((K.map (fun s => (src.count s : ℚ))).sum) / N) := by
  intro K
  induction K with
  | nil => simp
  | cons a K ih =>
    rw [List.map_cons, List.sum_cons, List.map_cons, List.sum_cons, ih]
    ring

/-- C10: whenever at least one order was purchased in the requested year,
the percentages returned by calculate_order_status_distribution sum to
exactly 100, and the percentage of each status equals 100 times its count
among the year's orders divided by the year's order count. -/
theorem order_status_distribution_sums_to_100 :
    ∀ (orders : List OrderRow) (y : Int),
      orders.filter (fun o => o.purchase_year = y) ≠ [] →
        ((calculate_order_status_distribution orders y).map Prod.snd).sum = 100
        ∧ ∀ p ∈ calculate_order_status_distribution orders y,
            p.2 = 100 * ((((orders.filter (fun o => o.purchase_year = y)).map
                  (fun o => o.order_status)).count p.1 : ℚ) /
                ((orders.filter (fun o => o.purchase_year = y)).map
                  (fun o => o.order_status)).length) := by
  intro orders y hne
  set statuses := (orders.filter (fun o => o.purchase_year = y)).map
    (fun o => o.order_status) with hst
  have hsne : statuses ≠ [] := by
    rw [hst]
    intro h
    exact hne (List.map_eq_nil_iff.mp h)
  have hlen : ((statuses.length : ℚ)) ≠ 0 := by
    intro h
    apply hsne
    rw [← List.length_eq_zero]
    exact_mod_cast h
  have hdist : calculate_order_status_distribution orders y
      = value_counts_pct statuses := rfl
  have hperm : List.Perm (value_counts_pct statuses)
      ((List.insertionSort (fun a b => a ≤ b) statuses.dedup).map
        (fun s => (s, 100 * ((statuses.count s : ℚ) / statuses.length)))) :=
    List.perm_insertionSort _ _
  have hkeysperm : List.Perm
      (List.insertionSort (fun a b => a ≤ b) statuses.dedup)
      statuses.dedup := List.perm_insertionSort _ _
  constructor
  · rw [hdist, (hperm.map Prod.snd).sum_eq, List.map_map]
    have hcomp : (Prod.snd ∘ fun s =>
        (s, 100 * ((statuses.count s : ℚ) / statuses.length)))
        = fun s => 100 * ((statuses.count s : ℚ) / statuses.length) := rfl
    rw [hcomp, (hkeysperm.map _).sum_eq, sum_map_pct]
    have hcast : ((statuses.dedup.map (fun s => (statuses.count s : ℚ))).sum)
        = ((statuses.dedup.map (fun s => statuses.count s)).sum : ℕ) := by
      rw [Nat.cast_list_sum, List.map_map]
      rfl
    rw [hcast, List.sum_map_count_dedup_eq_length]
    field_simp
  · intro p hp
    rw [hdist] at hp
    have hp2 : p ∈ (List.insertionSort (fun a b => a ≤ b) statuses.dedup).map
        (fun s => (s, 100 * ((statuses.count s : ℚ) / statuses.length))) :=
      hperm.mem_iff.mp hp
    rcases List.mem_map.mp hp2 with ⟨s, _, hps⟩
    rw [← hps]

/-- Witness for C10: the two-order scenario (one delivered, one shipped in
2023) has percentages summing to 100. -/
theorem order_status_distribution_sums_to_100_witness :
    ((calculate_order_status_distribution
        [⟨"A", "C1", "delivered", 2023⟩, ⟨"B", "C2", "shipped", 2023⟩]
        2023).map Prod.snd).sum = 100 :=
  (order_status_distribution_sums_to_100
    [⟨"A", "C1", "delivered", 2023⟩, ⟨"B", "C2", "shipped", 2023⟩]
    2023 (by decide)).1

/-- C8 counterexample: invoked on a table lacking the year column,
calculate_revenue_metrics fails with the pandas KeyError for that column
(raised by df[df[col] == v] at line 34), which is not the SchemaError
exception class the claim requires — no SchemaError exists anywhere in the
repository. -/
theorem revenue_metrics_missing_column_counterexample :
    calculate_revenue_metrics_untyped ⟨["price"], []⟩ 2023 2022
      = Except.error (PdError.keyError "year")
    ∧ calculate_revenue_metrics_untyped ⟨["price"], []⟩ 2023 2022
      ≠ Except.error (PdError.schemaErrorSpec "year") := by
  constructor
  · rfl
  · intro h
    simp [calculate_revenue_metrics_untyped, UTable.filterEq] at h

/-- C8 amended: every missing required column makes
calculate_revenue_metrics fail fast with the pandas KeyError naming that
column — the first column access that fails aborts the whole computation,
so no partially populated result is ever returned; but the error is the
built-in KeyError, not a SchemaError. -/
theorem revenue_metrics_missing_column_fails_fast :
    ∀ (t : UTable) (cy py : ℚ),
      ("year" ∉ t.cols →
        calculate_revenue_metrics_untyped t cy py
          = Except.error (PdError.keyError "year"))
      ∧ ("year" ∈ t.cols → "price" ∉ t.cols →
        calculate_revenue_metrics_untyped t cy py
          = Except.error (PdError.keyError "price")) := by
  intro t cy py
  constructor
  · intro h
    simp [calculate_revenue_metrics_untyped, UTable.filterEq, h]
  · intro hy hp
    simp [calculate_revenue_metrics_untyped, UTable.filterEq, UTable.getCol, hy, hp]

/-- Witness for C8 amended: the missing-year and missing-price cases at
concrete tables. -/
theorem revenue_metrics_missing_column_fails_fast_witness :
    calculate_revenue_metrics_untyped ⟨["price"], []⟩ 2023 2022
      = Except.error (PdError.keyError "year")
    ∧ calculate_revenue_metrics_untyped ⟨["year"], []⟩ 2023 2022
      = Except.error (PdError.keyError "price") :=
  ⟨(revenue_metrics_missing_column_fails_fast ⟨["price"], []⟩ 2023 2022).1
      (by decide),
    (revenue_metrics_missing_column_fails_fast ⟨["year"], []⟩ 2023 2022).2
      (by decide) (by decide)⟩
